import Mathlib

/-!
Shallow embedding of the KRAFT chat front end (kreat-agentic).

The development models, directly from the JavaScript sources:
  - the React blocks client-state store (frontend/src/store/chatStore.js),
  - the legacy sessions client-state store (the zustand store shipped with
    the legacy pages),
  - the vanilla-JS chat page (static/js/chat.js) with its module-level
    `messageHistory`, `currentSessionId`, typing flag and DOM message-count
    display,
  - the Socket.IO event subscribers (the idea-chat page variant and
    static/js/script.js) and their reconnect loop,
  - the EventSource streaming consumer (frontend ChatInterface.js),
  - the blocks chat interface send/export handlers (BlockChatInterface.js),
  - the React IdeaPage session bootstrap (IdeaPage.js).

Clock reads (`new Date().toISOString()` and friends) are passed in as an
explicit `now : String` argument, and server responses and socket payloads
are explicit inputs, so every definition is a pure function of its inputs.
-/

/-- One chat message, as the plain objects pushed into the various
`messageHistory` arrays.  `timestamp`, `session_id` are optional fields
(`none` models a JS `undefined` field), `error` models the optional error
flag on synthetic failure messages. -/
structure Message where
  role : String
  content : String
  timestamp : Option String := none
  error : Bool := false
  session_id : Option String := none
  deriving Repr, DecidableEq

/-- JS truthiness of an optional string field: an absent field and the
empty string are falsy, every other string is truthy. -/
def truthy : Option String → Bool
  | none => false
  | some s => !s.isEmpty

/-- The JS idiom `a || d` for an optional string `a` with a string
default `d`. -/
def jsOrDefault (a : Option String) (d : String) : String :=
  match a with
  | none => d
  | some s => if s.isEmpty then d else s

/-- The JS idiom `a || b` on two optional string fields. -/
def jsOrOpt (a b : Option String) : Option String :=
  if truthy a then a else b

/-- The JS `String.prototype.trim`: strip leading and trailing
whitespace.  Implemented structurally on the character list so that
concrete instances evaluate inside the kernel. -/
def jsTrim (s : String) : String :=
  ⟨((s.data.dropWhile Char.isWhitespace).reverse.dropWhile Char.isWhitespace).reverse⟩

/-- An activity-log entry (`logs` slice of the stores). -/
structure LogEntry where
  type : String
  message : String
  timestamp : String
  deriving Repr, DecidableEq

namespace ChatStore

/-! The blocks client-state store, from frontend/src/store/chatStore.js
(zustand `useChatStore`).  Only the persistent-middleware wrapper and the
DOM-free rendering are outside the model; every action body is translated
statement by statement. -/

/-- A block summary record (`blocks` list entries). -/
structure Block where
  block_id : String
  type : String
  name : String
  created_at : String
  deriving Repr, DecidableEq

/-- The `blockInfo` slice: creation time, displayed message count, block
type and the backend block id. -/
structure BlockInfo where
  created : Option String
  messageCount : Nat
  type : String
  blockId : Option String
  deriving Repr, DecidableEq

/-- The whole store state. -/
structure State where
  userId : Option String
  currentBlockId : Option String
  blocks : List Block
  messageHistory : List Message
  isTyping : Bool
  blockInfo : BlockInfo
  logs : List LogEntry
  deriving Repr, DecidableEq

/-- The store's initial state (the object literal passed to `create`).
`now` models the `new Date().toLocaleTimeString()` read in the initial
log entry. -/
def initialState (now : String) : State :=
  { userId := none
    currentBlockId := none
    blocks := []
    messageHistory := []
    isTyping := false
    blockInfo := { created := none, messageCount := 0, type := "general", blockId := none }
    logs := [{ type := "system", message := "Ready to assist with KRAFT framework", timestamp := now }] }

/-- `initializeUser`: lazily create the user id.  The fresh uuid is an
explicit input. -/
def initializeUser (s : State) (freshId : String) : State :=
  match s.userId with
  | none => { s with userId := some freshId }
  | some _ => s

/-- `setCurrentBlockId`. -/
def setCurrentBlockId (s : State) (blockId : Option String) : State :=
  { s with currentBlockId := blockId }

/-- `addMessage`: append one message and recompute the displayed message
count from the new history length. -/
def addMessage (s : State) (message : Message) : State :=
  let newHistory := s.messageHistory ++ [message]
  { s with
      messageHistory := newHistory
      blockInfo := { s.blockInfo with messageCount := newHistory.length } }

/-- `setBlocks`. -/
def setBlocks (s : State) (blocks : List Block) : State :=
  { s with blocks := blocks }

/-- Replace the first list entry whose `block_id` matches (the
`findIndex` / indexed-assignment idiom of `addBlock`). -/
def replaceFirstBlock : List Block → Block → List Block
  | [], _ => []
  | b :: bs, nb => if b.block_id == nb.block_id then nb :: bs else b :: replaceFirstBlock bs nb

/-- `addBlock`: update an existing entry by id in place, or prepend a new
entry. -/
def addBlock (s : State) (block : Block) : State :=
  if s.blocks.any (fun b => b.block_id == block.block_id) then
    { s with blocks := replaceFirstBlock s.blocks block }
  else
    { s with blocks := block :: s.blocks }

/-- `removeBlock`: drop the entry by id; when the removed block is the
current one, also null the current id and empty the history.  Note the
action does not touch `blockInfo.messageCount`. -/
def removeBlock (s : State) (blockId : String) : State :=
  { s with
      blocks := s.blocks.filter (fun b => !(b.block_id == blockId))
      currentBlockId := if s.currentBlockId == some blockId then none else s.currentBlockId
      messageHistory := if s.currentBlockId == some blockId then [] else s.messageHistory }

/-- The timestamp normalization inside `setMessageHistory`:
`{...msg, timestamp: msg.timestamp || new Date().toISOString()}`. -/
def normalizeMessage (now : String) (msg : Message) : Message :=
  { msg with timestamp := some (jsOrDefault msg.timestamp now) }

/-- `setMessageHistory`: replace the whole history with the normalized
messages and recompute the displayed message count. -/
def setMessageHistory (s : State) (messages : List Message) (now : String) : State :=
  let messagesWithTimestamps := messages.map (normalizeMessage now)
  { s with
      messageHistory := messagesWithTimestamps
      blockInfo := { s.blockInfo with messageCount := messagesWithTimestamps.length } }

/-- `clearMessages`: reset the history to the single cleared-notice system
message and the displayed count to 1. -/
def clearMessages (s : State) (now : String) : State :=
  { s with
      messageHistory := [{ role := "system", content := "Chat has been cleared. How can I help you today?", timestamp := some now }]
      blockInfo := { s.blockInfo with messageCount := 1 } }

/-- A partial update for `setBlockInfo` (the `...info` spread). -/
structure BlockInfoPatch where
  created : Option (Option String) := none
  messageCount : Option Nat := none
  type : Option String := none
  blockId : Option (Option String) := none
  deriving Repr, DecidableEq

/-- `setBlockInfo`: merge the given fields into `blockInfo`. -/
def setBlockInfo (s : State) (info : BlockInfoPatch) : State :=
  { s with blockInfo :=
      { created := info.created.getD s.blockInfo.created
        messageCount := info.messageCount.getD s.blockInfo.messageCount
        type := info.type.getD s.blockInfo.type
        blockId := info.blockId.getD s.blockInfo.blockId } }

/-- `setIsTyping`. -/
def setIsTyping (s : State) (status : Bool) : State :=
  { s with isTyping := status }

/-- `addLog`: append a log entry, stamping it with the current time. -/
def addLog (s : State) (type message now : String) : State :=
  { s with logs := s.logs ++ [{ type := type, message := message, timestamp := now }] }

/-- `resetStore`: back to the pre-session state (the user id and the
blocks list are kept). -/
def resetStore (s : State) (now : String) : State :=
  { s with
      currentBlockId := none
      messageHistory := []
      isTyping := false
      blockInfo := { created := none, messageCount := 0, type := "general", blockId := none }
      logs := [{ type := "system", message := "Ready to assist with KRAFT framework", timestamp := now }] }

/-- `createNewBlock`: reset the store, register a fresh local block,
make it current and fill in `blockInfo`.  The fresh uuid is an explicit
input. -/
def createNewBlock (s : State) (freshId : String) (type name now : String) : State :=
  let newBlock : Block := { block_id := freshId, type := type, name := name, created_at := now }
  let s1 := resetStore s now
  let s2 := addBlock s1 newBlock
  let s3 := setCurrentBlockId s2 (some freshId)
  setBlockInfo s3
    { created := some (some newBlock.created_at)
      type := some type
      blockId := some (some freshId)
      messageCount := some 0 }

end ChatStore

namespace LegacyStore

/-! The legacy sessions client-state store (the earlier zustand
`useChatStore` shipped with the legacy pages), translated action by
action.  Its `addMessage` increments the stored count instead of
recomputing it, and its `setMessageHistory` is a plain replacement with
no timestamp normalization and no count update. -/

/-- A session summary record. -/
structure Session where
  session_id : String
  type : String
  name : String
  created_at : String
  deriving Repr, DecidableEq

/-- The `sessionInfo` slice. -/
structure SessionInfo where
  created : Option String
  messageCount : Nat
  type : String
  deriving Repr, DecidableEq

/-- The whole legacy store state. -/
structure State where
  currentSessionId : Option String
  sessions : List Session
  messageHistory : List Message
  isTyping : Bool
  sessionInfo : SessionInfo
  logs : List LogEntry
  deriving Repr, DecidableEq

/-- The legacy store's initial state. -/
def initialState (now : String) : State :=
  { currentSessionId := none
    sessions := []
    messageHistory := []
    isTyping := false
    sessionInfo := { created := none, messageCount := 0, type := "idea" }
    logs := [{ type := "system", message := "Ready to assist with idea development", timestamp := now }] }

/-- `setCurrentSessionId`. -/
def setCurrentSessionId (s : State) (sessionId : Option String) : State :=
  { s with currentSessionId := sessionId }

/-- `addMessage`: append one message and increment the stored count. -/
def addMessage (s : State) (message : Message) : State :=
  { s with
      messageHistory := s.messageHistory ++ [message]
      sessionInfo := { s.sessionInfo with messageCount := s.sessionInfo.messageCount + 1 } }

/-- `setMessageHistory`: plain replacement of the history; the stored
count and the message timestamps are left untouched. -/
def setMessageHistory (s : State) (messages : List Message) : State :=
  { s with messageHistory := messages }

/-- `clearMessages`. -/
def clearMessages (s : State) (now : String) : State :=
  { s with
      messageHistory := [{ role := "system", content := "Chat has been cleared. How can I help you today?", timestamp := some now }]
      sessionInfo := { s.sessionInfo with messageCount := 1 } }

/-- A partial update for `setSessionInfo`. -/
structure SessionInfoPatch where
  created : Option (Option String) := none
  messageCount : Option Nat := none
  type : Option String := none
  deriving Repr, DecidableEq

/-- `setSessionInfo`: merge the given fields into `sessionInfo`. -/
def setSessionInfo (s : State) (info : SessionInfoPatch) : State :=
  { s with sessionInfo :=
      { created := info.created.getD s.sessionInfo.created
        messageCount := info.messageCount.getD s.sessionInfo.messageCount
        type := info.type.getD s.sessionInfo.type } }

/-- `setIsTyping`. -/
def setIsTyping (s : State) (status : Bool) : State :=
  { s with isTyping := status }

/-- `addLog`. -/
def addLog (s : State) (type message now : String) : State :=
  { s with logs := s.logs ++ [{ type := type, message := message, timestamp := now }] }

/-- `resetStore`. -/
def resetStore (s : State) (now : String) : State :=
  { s with
      currentSessionId := none
      messageHistory := []
      isTyping := false
      sessionInfo := { created := none, messageCount := 0, type := "idea" }
      logs := [{ type := "system", message := "Ready to assist with idea development", timestamp := now }] }

end LegacyStore

/-- A socket `chat_response` payload (`data` in `receiveMessage`): every
field may be absent. -/
structure ChatPayload where
  session_id : Option String := none
  response : Option String := none
  content : Option String := none
  timestamp : Option String := none
  deriving Repr, DecidableEq

/-- A session record as carried by REST responses and the
`session_update` / `new_session_created` socket payloads. -/
structure SessionData where
  session_id : String
  created_at : String
  name : Option String := none
  deriving Repr, DecidableEq

/-- A `typing_indicator` socket payload. -/
structure TypingPayload where
  session_id : Option String := none
  is_typing : Bool
  deriving Repr, DecidableEq

/-- The JS strict comparison `payloadId === currentSessionId` between a
possibly-absent payload field and the possibly-null module global:
`undefined` never strictly equals `null` or a string, and `null` never
strictly equals a string, so only two present strings can match. -/
def sessionIdMatches (payloadId current : Option String) : Bool :=
  match payloadId, current with
  | some a, some b => a == b
  | _, _ => false

namespace ChatJs

/-! The vanilla-JS idea-chat page, static/js/chat.js, together with the
DOM cells its functions write: the module globals `currentSessionId`,
`messageHistory`, `isTyping`, and the `#message-count`, `#session-id`,
`#session-created` display cells, the enabled state of the input
elements, and the sidebar sessions list.  Functions that only template
HTML for an existing message (`addMessageToUI`, `renderMessages`,
`formatMessageContent`, `scrollToBottom`) do not touch this state and
are not modelled separately. -/

/-- One sidebar list entry (a `#session-<id>` list item with its title
text). -/
structure SessionEntry where
  session_id : String
  title : String
  deriving Repr, DecidableEq

/-- The page state: module globals plus the DOM cells the chat functions
write.  `displayedCount` is the numeral shown in `#message-count`. -/
structure State where
  currentSessionId : Option String
  messageHistory : List Message
  isTyping : Bool
  displayedCount : Nat
  sessionIdText : String
  sessionCreatedText : String
  inputDisabled : Bool
  sendDisabled : Bool
  sessionsList : List SessionEntry
  deriving Repr, DecidableEq

/-- The page state right after script load: empty history, no session,
count cell showing 0. -/
def freshState : State :=
  { currentSessionId := none
    messageHistory := []
    isTyping := false
    displayedCount := 0
    sessionIdText := ""
    sessionCreatedText := ""
    inputDisabled := false
    sendDisabled := false
    sessionsList := [] }

/-- `updateMessageCount`: write the current history length into the
`#message-count` cell. -/
def updateMessageCount (s : State) : State :=
  { s with displayedCount := s.messageHistory.length }

/-- `showTypingIndicator`: the state effect is setting the `isTyping`
global (the indicator bubble itself is presentation only; the JS
argument is called `show`, a Lean keyword). -/
def showTypingIndicator (s : State) (shown : Bool) : State :=
  { s with isTyping := shown }

/-- The sidebar title for a session record:
`session.name || "Session " + id.substring(0, 8)`. -/
def sessionTitle (session : SessionData) : String :=
  jsOrDefault session.name ("Session " ++ session.session_id.take 8)

/-- `addSessionToList`: update the title of an existing entry in place,
or insert a new entry (prepended when flagged new, appended otherwise).
The transient highlight classes are cosmetic and not modelled. -/
def addSessionToList (s : State) (session : SessionData) (isNew : Bool) : State :=
  if s.sessionsList.any (fun e => e.session_id == session.session_id) then
    { s with sessionsList := s.sessionsList.map (fun e =>
        if e.session_id == session.session_id then { e with title := sessionTitle session } else e) }
  else
    let entry : SessionEntry := { session_id := session.session_id, title := sessionTitle session }
    if isNew then { s with sessionsList := entry :: s.sessionsList }
    else { s with sessionsList := s.sessionsList ++ [entry] }

/-- `updateSessionsList`: wholesale replacement of the sidebar from a
`sessions_list` payload (an empty payload leaves a placeholder, i.e. no
entries). -/
def updateSessionsList (s : State) (sessions : List SessionData) : State :=
  if sessions.isEmpty then { s with sessionsList := [] }
  else sessions.foldl (fun acc session => addSessionToList acc session false) { s with sessionsList := [] }

/-- `updateSessionInfo`: refresh the `#session-id` and `#session-created`
cells and the count cell.  The locale formatting of `created_at` is not
modelled; the raw string is displayed. -/
def updateSessionInfo (s : State) (session : SessionData) : State :=
  let s := { s with
    sessionIdText := "Session: " ++ session.session_id.take 8 ++ "..."
    sessionCreatedText := session.created_at }
  updateMessageCount s

/-- The system message installed by `clearChat` when no system message is
present. -/
def clearedNotice (now : String) : Message :=
  { role := "system", content := "Chat has been cleared. How can I help you today?", timestamp := some now }

/-- `clearChat`: optionally ask for confirmation, then reduce the history
to its first system message (or the cleared notice) and refresh the
count cell.  `confirmed` is the answer the user would give to the
confirm dialog; the server notification is network-only. -/
def clearChat (s : State) (askConfirmation confirmed : Bool) (now : String) : State :=
  if askConfirmation && s.messageHistory.length > 1 && !confirmed then s
  else
    let systemMessages := s.messageHistory.filter (fun msg => msg.role == "system")
    let newHistory := match systemMessages with
      | [] => [clearedNotice now]
      | m :: _ => [m]
    updateMessageCount { s with messageHistory := newHistory }

/-- The welcome message pushed at the end of `createNewSession`. -/
def welcomeMessage (now : String) : Message :=
  { role := "system"
    content := "Welcome to a new Idea Development session. How can I help you today?"
    timestamp := some now }

/-- The success continuation of `createNewSession` (`data` is the parsed
`POST /api/sessions/new` response): set the current session id, clear
the chat without confirmation, refresh the session info cells, then push
the welcome message.  Note the final push bypasses
`updateMessageCount`. -/
def createNewSession (s : State) (data : SessionData) (now : String) : State :=
  let s1 := { s with currentSessionId := some data.session_id }
  let s2 := clearChat s1 false false now
  let s3 := updateSessionInfo s2 data
  { s3 with messageHistory := s3.messageHistory ++ [welcomeMessage now] }

/-- `sendMessage`, up to the point the `/api/chat` request is issued:
trim the input, bail out on an empty message, otherwise disable the
input, append the user message, refresh the count cell and raise the
typing indicator.  The returned state is the page state at the moment
the network call starts. -/
def sendMessage (s : State) (rawInput now : String) : State :=
  let message := jsTrim rawInput
  if message.isEmpty then s
  else
    let s1 := { s with inputDisabled := true, sendDisabled := true }
    let msgObj : Message :=
      { role := "user", content := message, timestamp := some now, session_id := s.currentSessionId }
    let s2 := { s1 with messageHistory := s1.messageHistory ++ [msgObj] }
    let s3 := updateMessageCount s2
    showTypingIndicator s3 true

/-- The `finally` clause of `sendMessage`: re-enable the input. -/
def sendMessageCleanup (s : State) : State :=
  { s with inputDisabled := false, sendDisabled := false }

/-- The `catch` clause of `sendMessage`: drop the typing indicator and
append a synthetic system error message (without a count refresh). -/
def sendMessageFailure (s : State) (errMessage now : String) : State :=
  let s1 := showTypingIndicator s false
  let errorMsg : Message :=
    { role := "system", content := "Error: " ++ errMessage ++ ". Please try again."
      timestamp := some now, error := true }
  { s1 with messageHistory := s1.messageHistory ++ [errorMsg] }

/-- `receiveMessage`: drop the typing indicator; on a non-null payload,
append the assistant message built from `response || content ||
"No response received"` and `timestamp || now`, then refresh the count
cell.  No session-id check is performed. -/
def receiveMessage (s : State) (data : Option ChatPayload) (now : String) : State :=
  let s1 := showTypingIndicator s false
  match data with
  | none => s1
  | some d =>
    let msgObj : Message :=
      { role := "assistant"
        content := jsOrDefault (jsOrOpt d.response d.content) "No response received"
        timestamp := some (jsOrDefault d.timestamp now) }
    let s2 := { s1 with messageHistory := s1.messageHistory ++ [msgObj] }
    updateMessageCount s2

/-- The success continuation of `deleteSessionById` after the user
confirmed and the `DELETE` call succeeded: remove the sidebar entry and,
when the deleted session is the current one, null the current id, blank
the info cells, show 0 in the count cell and disable the input.  The
module-level `messageHistory` is never touched. -/
def deleteSessionById (s : State) (sessionId : String) : State :=
  let s1 := { s with sessionsList := s.sessionsList.filter (fun e => !(e.session_id == sessionId)) }
  if some sessionId == s1.currentSessionId then
    { s1 with
        currentSessionId := none
        sessionIdText := "No active session"
        sessionCreatedText := "-"
        displayedCount := 0
        inputDisabled := true
        sendDisabled := true }
  else s1

/-- Why `exportChat` can fail. -/
inductive ExportErr where
  /-- Empty history: the guard alerts and returns, no file is built. -/
  | noMessages : ExportErr
  /-- `currentSessionId` is null: building the download filename
  evaluates `null.substring` and throws a TypeError, so no file is
  downloaded. -/
  | nullSessionTypeError : ExportErr
  deriving Repr, DecidableEq

/-- The JSON document `exportChat` serializes. -/
structure ExportDoc where
  session_id : Option String
  messages : List Message
  exported_at : String
  type : String
  deriving Repr, DecidableEq

/-- A completed export: the document plus the download filename. -/
structure ExportFile where
  doc : ExportDoc
  filename : String
  deriving Repr, DecidableEq

/-- `exportChat`: reject an empty history; otherwise build the export
document and download it under
`kraft-chat-<id prefix>-<date>.json`.  When `currentSessionId` is null
the filename computation throws before any download is triggered. -/
def exportChat (s : State) (now : String) : Except ExportErr ExportFile :=
  if s.messageHistory.isEmpty then .error .noMessages
  else
    let exportData : ExportDoc :=
      { session_id := s.currentSessionId
        messages := s.messageHistory
        exported_at := now
        type := "idea_development" }
    match s.currentSessionId with
    | none => .error .nullSessionTypeError
    | some sid =>
      .ok { doc := exportData
            filename := "kraft-chat-" ++ sid.take 8 ++ "-" ++ now.take 10 ++ ".json" }

/-- The duplicate test of the `visibilitychange` catch-up handler: a
history entry `m` counts as the same event as a fetched message `msg`
when timestamp, content and role all strictly match. -/
def matchesFetched (msg m : Message) : Bool :=
  m.timestamp == msg.timestamp && m.content == msg.content && m.role == msg.role

/-- The visibility-regain catch-up merge (the `visibilitychange`
handler): a fetched message is appended unless some history entry
already matches it on timestamp, content and role simultaneously. -/
def mergeFetchedMessage (history : List Message) (msg : Message) : List Message :=
  if history.any (matchesFetched msg)
  then history
  else history ++ [msg]

/-- The whole batch merge: fold `mergeFetchedMessage` over the fetched
messages in order (each message is checked against the history as grown
so far), then refresh the count cell. -/
def mergeFetchedMessages (history : List Message) (batch : List Message) : List Message :=
  batch.foldl mergeFetchedMessage history

/-- The `visibilitychange` handler state effect for a non-empty fetched
batch: merge then refresh the count cell. -/
def visibilityCatchUp (s : State) (batch : List Message) : State :=
  updateMessageCount { s with messageHistory := mergeFetchedMessages s.messageHistory batch }

end ChatJs

/-- The typed socket events both subscriber variants can receive.  Each
variant simply does not subscribe to the events it has no handler for. -/
inductive SocketEvent where
  | chat_response (data : Option ChatPayload)
  | typing_indicator (data : TypingPayload)
  | session_update (data : SessionData)
  | new_session_created (data : SessionData)
  | sessions_list (data : List SessionData)
  | session_deleted (data : SessionData)
  deriving Repr, DecidableEq

namespace IdeaSocket

/-! The Socket.IO subscriber of the idea-chat page variant that opens the
socket itself (`initializeSocket`), and its reconnect loop.  The page
state it mutates is the `ChatJs.State` of the same file. -/

/-- `MAX_RECONNECT_ATTEMPTS`. -/
def MAX_RECONNECT_ATTEMPTS : Nat := 5

/-- What one call to `attemptReconnect` schedules. -/
inductive ReconnectAction where
  /-- A `setTimeout(initializeSocket, delayMs)` was registered. -/
  | schedule (delayMs : Nat)
  /-- The cap was reached: only the terminal please-refresh notice is
  logged, nothing is scheduled. -/
  | terminalNotice
  deriving Repr, DecidableEq

/-- `attemptReconnect`: below the cap, increment the counter and schedule
a reconnect `2000 * reconnectAttempts` ms out (with the counter already
incremented); at the cap, log the terminal notice and schedule
nothing. -/
def attemptReconnect (reconnectAttempts : Nat) : Nat × ReconnectAction :=
  if reconnectAttempts < MAX_RECONNECT_ATTEMPTS then
    (reconnectAttempts + 1, .schedule (2000 * (reconnectAttempts + 1)))
  else
    (reconnectAttempts, .terminalNotice)

/-- The socket lifecycle events that touch the reconnect counter. -/
inductive LifecycleEvent where
  | connected
  | disconnected
  | socketError
  deriving Repr, DecidableEq

/-- The reconnect counter transition of the `connect` / `disconnect` /
`error` handlers: `connect` resets the counter, `disconnect` only logs,
`error` runs `attemptReconnect`. -/
def lifecycleStep (reconnectAttempts : Nat) : LifecycleEvent → Nat × Option ReconnectAction
  | .connected => (0, none)
  | .disconnected => (reconnectAttempts, none)
  | .socketError =>
    let r := attemptReconnect reconnectAttempts
    (r.1, some r.2)

/-- The reconnect counter after a run of lifecycle events starting from
`reconnectAttempts`. -/
def runLifecycle (reconnectAttempts : Nat) (events : List LifecycleEvent) : Nat :=
  events.foldl (fun a e => (lifecycleStep a e).1) reconnectAttempts

/-- The message-event subscriptions of `initializeSocket`:
`chat_response` is handed to `receiveMessage` with no session check,
`typing_indicator` and `session_update` are dropped unless the payload
session id strictly equals the current one, `new_session_created` and
`sessions_list` update the sidebar regardless.  This variant has no
`session_deleted` subscription. -/
def handleEvent (s : ChatJs.State) (e : SocketEvent) (now : String) : ChatJs.State :=
  match e with
  | .chat_response data => ChatJs.receiveMessage s data now
  | .typing_indicator data =>
    if sessionIdMatches data.session_id s.currentSessionId then
      ChatJs.showTypingIndicator s data.is_typing
    else s
  | .session_update data =>
    if sessionIdMatches (some data.session_id) s.currentSessionId then
      ChatJs.updateSessionInfo s data
    else s
  | .new_session_created data => ChatJs.addSessionToList s data true
  | .sessions_list data => ChatJs.updateSessionsList s data
  | .session_deleted _ => s

end IdeaSocket

namespace ScriptSocket

/-! The Socket.IO subscriber of static/js/script.js (`connectSocket`),
which dispatches into the chat.js page functions when they exist.  It
subscribes to `session_deleted` but not to `sessions_list`. -/

/-- `onSessionDeleted`: when the deleted session is the current one, null
the current id, blank the info cells, show 0 in the count cell and
disable the input; in every case remove the sidebar entry.  The message
history is never touched. -/
def onSessionDeleted (s : ChatJs.State) (sessionId : String) : ChatJs.State :=
  let s1 :=
    if sessionIdMatches (some sessionId) s.currentSessionId then
      { s with
          currentSessionId := none
          sessionIdText := "No active session"
          sessionCreatedText := "-"
          displayedCount := 0
          inputDisabled := true
          sendDisabled := true }
    else s
  { s1 with sessionsList := s1.sessionsList.filter (fun e => !(e.session_id == sessionId)) }

/-- The message-event subscriptions of `connectSocket`: as in the page
variant, `chat_response` is handed to `receiveMessage` with no session
check; `typing_indicator` and `session_update` additionally require a
non-null current session before the strict id comparison. -/
def handleEvent (s : ChatJs.State) (e : SocketEvent) (now : String) : ChatJs.State :=
  match e with
  | .chat_response data => ChatJs.receiveMessage s data now
  | .typing_indicator data =>
    if s.currentSessionId.isSome && sessionIdMatches data.session_id s.currentSessionId then
      ChatJs.showTypingIndicator s data.is_typing
    else s
  | .session_update data =>
    if s.currentSessionId.isSome && sessionIdMatches (some data.session_id) s.currentSessionId then
      ChatJs.updateSessionInfo s data
    else s
  | .new_session_created data => ChatJs.addSessionToList s data true
  | .sessions_list _ => s
  | .session_deleted data => onSessionDeleted s data.session_id

end ScriptSocket

namespace StreamUI

/-! The EventSource streaming consumer of the React sessions UI
(frontend ChatInterface.js `handleSendMessage`).  The event wiring below
is translated from that file; the store slice it drives is not under
src/ (the `useChatStore` it imports exposes no streaming actions), so
the store actions are modelled from the spec. -/

/-- Modelled from the spec: the streaming slice of the sessions store
(`messageHistory`, the typing flag and the pending assistant buffer
`streamingMessage`), which is missing from src/ — the imported store
defines no `streamingMessage`, `startStreaming`, `appendToStream` or
`endStreaming`.  The pending buffer is "a single pending assistant
message buffer" kept separate from the history; the empty string models
the no-pending-content state. -/
structure State where
  messageHistory : List Message
  isTyping : Bool
  streamingMessage : String
  deriving Repr, DecidableEq

/-- Modelled from the spec: `addMessage` "appends one message" (only the
slices present in this model are tracked). -/
def addMessage (s : State) (message : Message) : State :=
  { s with messageHistory := s.messageHistory ++ [message] }

/-- Modelled from the spec: `startStreaming` opens a streaming episode —
the typing/streaming flag goes up and the pending buffer starts
empty. -/
def startStreaming (s : State) : State :=
  { s with isTyping := true, streamingMessage := "" }

/-- Modelled from the spec: `appendToStream` — "chunks are concatenated
into a single pending assistant message buffer"; the history is not
touched. -/
def appendToStream (s : State) (chunk : String) : State :=
  { s with streamingMessage := s.streamingMessage ++ chunk }

/-- Modelled from the spec: `endStreaming` closes the episode — "the
buffer is only committed to history once a completion sentinel is
received or the stream errors", so a non-empty pending buffer is
committed as one assistant message here, the buffer is cleared and the
flag dropped. -/
def endStreaming (s : State) (now : String) : State :=
  let s1 :=
    if s.streamingMessage.isEmpty then s
    else addMessage s { role := "assistant", content := s.streamingMessage, timestamp := some now }
  { s1 with isTyping := false, streamingMessage := "" }

/-- The events the EventSource delivers to the handler wired in
`handleSendMessage`: a parsed `{chunk}` message or the error
callback. -/
inductive StreamEvent where
  | messageEvt (chunk : String)
  | errorEvt
  deriving Repr, DecidableEq

/-- The synthetic system message the `onerror` handler appends. -/
def streamErrorMessage (now : String) : Message :=
  { role := "system", content := "Error: Connection to server lost. Please try again."
    timestamp := some now, error := true }

/-- The `onmessage` / `onerror` wiring of `handleSendMessage`: a chunk
equal to the `[DONE]` sentinel ends the stream, any other chunk is
appended to the pending buffer; the error callback ends the stream and
then appends the synthetic system error message. -/
def handleStreamEvent (s : State) (e : StreamEvent) (now : String) : State :=
  match e with
  | .messageEvt chunk =>
    if chunk == "[DONE]" then endStreaming s now
    else appendToStream s chunk
  | .errorEvt =>
    let s1 := endStreaming s now
    addMessage s1 (streamErrorMessage now)

/-- A whole delivered event sequence, folded through the handler. -/
def processStream (s : State) (events : List StreamEvent) (now : String) : State :=
  events.foldl (fun acc e => handleStreamEvent acc e now) s

end StreamUI

namespace BlockUI

/-! The blocks chat interface (frontend BlockChatInterface.js), whose
handlers drive the blocks store `ChatStore.State`. -/

/-- The shape of the parsed `data.response` field of the analyze
endpoints: a structured object, a plain string, or absent.  For the
object shape, `serialized` carries the `JSON.stringify(data.response,
null, 2)` rendering used by the fallback branch. -/
inductive RespShape where
  | objResp (suggestion : Option String) (analysis : Option String) (serialized : String)
  | strResp (v : String)
  | missing
  deriving Repr, DecidableEq

/-- The parsed body of a successful analyze response. -/
structure ApiData where
  response : RespShape
  block_id : Option String := none
  block_type : Option String := none
  deriving Repr, DecidableEq

/-- JS template interpolation of a possibly-absent field: an absent
field renders as the string `undefined`. -/
def jsInterp : Option String → String
  | none => "undefined"
  | some s => s

/-- The fallback reply used when the response shape is unusable. -/
def fallbackReply : String :=
  "I\x27ve processed your request, but I\x27m not sure how to respond. Can you provide more details?"

/-- The response-content extraction of `handleSendMessage`: a truthy
`suggestion` wins, else a truthy `analysis` is rendered as
`analysis\n\nsuggestion` (with JS interpolation of a possibly-absent
suggestion), else the serialized object; a truthy string response is
used as is; everything else falls back to the canned reply. -/
def extractContent (data : ApiData) : String :=
  match data.response with
  | .objResp suggestion analysis serialized =>
    if truthy suggestion then jsInterp suggestion
    else if truthy analysis then jsInterp analysis ++ "\n\n" ++ jsInterp suggestion
    else serialized
  | .strResp v => if v.isEmpty then fallbackReply else v
  | .missing => fallbackReply

/-- The block-info reconciliation of `handleSendMessage`: when the
object-shaped response carries a backend block id and the store has
none yet, record the backend id and type and log it. -/
def reconcileBlockId (s : ChatStore.State) (data : ApiData) (blockType now : String) : ChatStore.State :=
  match data.response with
  | .objResp _ _ _ =>
    if truthy data.block_id && !(truthy s.blockInfo.blockId) then
      let s1 := ChatStore.setBlockInfo s
        { blockId := some data.block_id
          type := some (jsOrDefault data.block_type blockType) }
      ChatStore.addLog s1 "info" "Identified block" now
    else s
  | _ => s

/-- The outcome of the analyze fetch as seen by the handler. -/
inductive FetchOutcome where
  | ok (data : ApiData)
  | failed (errMessage : String)
  deriving Repr, DecidableEq

/-- `handleSendMessage` of the blocks chat interface: bail out without a
current block or on a blank message or a missing user id; otherwise
append the user message, raise the typing flag, and on the fetch
outcome append exactly one assistant message (success) or one system
error message (failure), dropping the typing flag in the `finally`
clause either way. -/
def handleSendMessage (s : ChatStore.State) (content : String) (outcome : FetchOutcome)
    (blockType now : String) : ChatStore.State :=
  if s.currentBlockId.isNone || (jsTrim content).isEmpty then s
  else if s.userId.isNone then ChatStore.addLog s "error" "User ID not initialized" now
  else
    let userMessage : Message := { role := "user", content := content, timestamp := some now }
    let s1 := ChatStore.addMessage s userMessage
    let s2 := ChatStore.setIsTyping s1 true
    let s3 :=
      match outcome with
      | .ok data =>
        let s3a := reconcileBlockId s2 data blockType now
        let s3b := ChatStore.addMessage s3a
          { role := "assistant", content := extractContent data, timestamp := some now }
        ChatStore.addLog s3b "info" "Received response from assistant" now
      | .failed errMessage =>
        let s3a := ChatStore.addMessage s2
          { role := "system", content := "Error: " ++ errMessage ++ ". Please try again."
            timestamp := some now, error := true }
        ChatStore.addLog s3a "error" ("Error sending message: " ++ errMessage) now
    ChatStore.setIsTyping s3 false

/-- `handleExportChat` of the blocks chat interface: reject when there is
no current block or the history is empty; otherwise download the
`{block_id, backend_block_id, block_type, messages, exported_at}`
document under `kraft-chat-<id prefix>-<date>.json`. -/
structure BlockExportDoc where
  block_id : String
  backend_block_id : Option String
  block_type : String
  messages : List Message
  exported_at : String
  deriving Repr, DecidableEq

/-- A completed block export: the document plus the download
filename. -/
structure BlockExportFile where
  doc : BlockExportDoc
  filename : String
  deriving Repr, DecidableEq

/-- `handleExportChat` (see `BlockExportDoc`). -/
def handleExportChat (s : ChatStore.State) (blockType now : String) :
    Option BlockExportFile :=
  match s.currentBlockId with
  | none => none
  | some blockId =>
    if s.messageHistory.isEmpty then none
    else
      some
        { doc :=
            { block_id := blockId
              backend_block_id := s.blockInfo.blockId
              block_type := jsOrDefault (some s.blockInfo.type) blockType
              messages := s.messageHistory
              exported_at := now }
          filename := "kraft-chat-" ++ blockId.take 8 ++ "-" ++ now.take 10 ++ ".json" }

end BlockUI

namespace IdeaPage

/-! The React IdeaPage session bootstrap (frontend IdeaPage.js), whose
handlers drive the legacy sessions store `LegacyStore.State`. -/

/-- The welcome message `createNewSession` installs. -/
def welcomeMessage (now : String) : Message :=
  { role := "system"
    content := "Welcome to a new Idea Development session. How can I help you today?"
    timestamp := some now }

/-- The success path of IdeaPage `createNewSession` (`data` is the
parsed `POST /api/sessions/new` response): record the session id, clear
the history, set the session info with `messageCount: 0`, log, and
finally replace the history with the single welcome message.  The last
`setMessageHistory` call leaves the stored message count untouched. -/
def createNewSession (s : LegacyStore.State) (session_id created_at now : String) :
    LegacyStore.State :=
  let s1 := LegacyStore.setCurrentSessionId s (some session_id)
  let s2 := LegacyStore.setMessageHistory s1 []
  let s3 := LegacyStore.setSessionInfo s2
    { created := some (some created_at), messageCount := some 0, type := some "idea" }
  let s4 := LegacyStore.addLog s3 "system" ("Created new session: " ++ session_id.take 8 ++ "...") now
  LegacyStore.setMessageHistory s4 [welcomeMessage now]

end IdeaPage

namespace ChatStore

/-- The history-facing store actions named by the count invariant:
`addMessage`, `setMessageHistory`, `clearMessages`, `resetStore`. -/
inductive StoreOp where
  | add (m : Message)
  | setHistory (l : List Message) (now : String)
  | clearAll (now : String)
  | reset (now : String)
  deriving Repr, DecidableEq

/-- Dispatch one `StoreOp` to the corresponding store action. -/
def applyOp (s : State) : StoreOp → State
  | .add m => addMessage s m
  | .setHistory l now => setMessageHistory s l now
  | .clearAll now => clearMessages s now
  | .reset now => resetStore s now

/-- Run a sequence of store actions. -/
def applyOps (s : State) (ops : List StoreOp) : State :=
  ops.foldl applyOp s

/-- The displayed-count invariant: the count stored in `blockInfo`
equals the length of the message history. -/
def countInv (s : State) : Prop :=
  s.blockInfo.messageCount = s.messageHistory.length

instance (s : State) : Decidable (countInv s) := by
  unfold countInv; infer_instance

end ChatStore

/-! ## Theorems -/

/-- Each of the four named store actions of the blocks store rewrites the
displayed count from the new history, so it preserves the count
invariant. -/
theorem ChatStore.countInv_applyOp (s : ChatStore.State) (op : ChatStore.StoreOp) :
    ChatStore.countInv (ChatStore.applyOp s op) := by
  cases op <;>
    simp [ChatStore.applyOp, ChatStore.addMessage, ChatStore.setMessageHistory,
      ChatStore.clearMessages, ChatStore.resetStore, ChatStore.countInv]

/-- Sequences of the four named store actions keep the count invariant
from any starting state satisfying it. -/
theorem ChatStore.countInv_applyOps (s : ChatStore.State) (ops : List ChatStore.StoreOp)
    (h : ChatStore.countInv s) : ChatStore.countInv (ChatStore.applyOps s ops) := by
  induction ops generalizing s with
  | nil => exact h
  | cons op ops ih =>
    simpa [ChatStore.applyOps, List.foldl_cons] using
      ih (ChatStore.applyOp s op) (ChatStore.countInv_applyOp s op)

/-- C1 counterexample: in the legacy sessions store the claim fails as
stated.  The IdeaPage session-creation welcome append goes through the
legacy `setMessageHistory`, which replaces the history without touching
the stored count: immediately after creating a session from the initial
state, the history holds the one welcome message but the stored message
count is still 0, so the displayed count does not equal the history
length and neither `setMessageHistory` nor the welcome-message append
preserves the equality. -/
theorem C1_counterexample :
    ¬ ((IdeaPage.createNewSession (LegacyStore.initialState "T0") "sess-12345"
          "2025-01-01T00:00:00Z" "2025-01-01T00:00:01Z").sessionInfo.messageCount
        = (IdeaPage.createNewSession (LegacyStore.initialState "T0") "sess-12345"
          "2025-01-01T00:00:00Z" "2025-01-01T00:00:01Z").messageHistory.length) := by
  decide

/-- C1 (amended): in the blocks store (frontend chatStore.js) the
displayed message count equals the history length after every sequence
of `addMessage`, `setMessageHistory`, `clearMessages` and `resetStore`
calls from the initial state, and each of these actions preserves the
equality from any state satisfying it.  The legacy sessions store's
`setMessageHistory` does not preserve the equality (see the
counterexample). -/
theorem C1_blocks_count_invariant :
    (∀ (now : String) (ops : List ChatStore.StoreOp),
        ChatStore.countInv (ChatStore.applyOps (ChatStore.initialState now) ops)) ∧
    (∀ (s : ChatStore.State) (ops : List ChatStore.StoreOp),
        ChatStore.countInv s → ChatStore.countInv (ChatStore.applyOps s ops)) := by
  constructor
  · intro now ops
    exact ChatStore.countInv_applyOps _ ops (by simp [ChatStore.initialState, ChatStore.countInv])
  · intro s ops h
    exact ChatStore.countInv_applyOps s ops h

/-- C1 witness: the invariant instantiated on a concrete action
sequence. -/
theorem C1_blocks_count_invariant_witness :
    ChatStore.countInv (ChatStore.applyOps (ChatStore.initialState "T")
      [ChatStore.StoreOp.add { role := "user", content := "hi" },
       ChatStore.StoreOp.setHistory [{ role := "assistant", content := "yo" }] "T2",
       ChatStore.StoreOp.clearAll "T3"]) :=
  C1_blocks_count_invariant.2 (ChatStore.initialState "T")
    [ChatStore.StoreOp.add { role := "user", content := "hi" },
     ChatStore.StoreOp.setHistory [{ role := "assistant", content := "yo" }] "T2",
     ChatStore.StoreOp.clearAll "T3"] (by decide)

/-- The block-id reconciliation step of the blocks send handler never
touches the history. -/
theorem BlockUI.reconcileBlockId_messageHistory (s : ChatStore.State) (data : BlockUI.ApiData)
    (blockType now : String) :
    (BlockUI.reconcileBlockId s data blockType now).messageHistory = s.messageHistory := by
  unfold BlockUI.reconcileBlockId
  split
  · split <;> simp [ChatStore.setBlockInfo, ChatStore.addLog]
  · rfl

/-- The block-id reconciliation step of the blocks send handler never
touches the typing flag. -/
theorem BlockUI.reconcileBlockId_isTyping (s : ChatStore.State) (data : BlockUI.ApiData)
    (blockType now : String) :
    (BlockUI.reconcileBlockId s data blockType now).isTyping = s.isTyping := by
  unfold BlockUI.reconcileBlockId
  split
  · split <;> simp [ChatStore.setBlockInfo, ChatStore.addLog]
  · rfl

/-- C2: in chat.js, a non-blank send puts the user message into the
history and raises the typing flag in the state from which the network
call is issued; the assistant reply then appends exactly one assistant
message and drops the typing flag, for a net history growth of exactly
2.  In the blocks chat interface, the same holds of `handleSendMessage`
with a successful fetch outcome. -/
theorem C2_send_appends_then_reply (s : ChatJs.State) (raw now1 now2 : String)
    (d : ChatPayload) (h : (jsTrim raw).isEmpty = false) :
    (ChatJs.sendMessage s raw now1).messageHistory
        = s.messageHistory ++
          [{ role := "user", content := jsTrim raw, timestamp := some now1,
             session_id := s.currentSessionId }] ∧
    (ChatJs.sendMessage s raw now1).isTyping = true ∧
    (ChatJs.receiveMessage (ChatJs.sendMessage s raw now1) (some d) now2).messageHistory
        = (ChatJs.sendMessage s raw now1).messageHistory ++
          [{ role := "assistant",
             content := jsOrDefault (jsOrOpt d.response d.content) "No response received",
             timestamp := some (jsOrDefault d.timestamp now2) }] ∧
    (ChatJs.receiveMessage (ChatJs.sendMessage s raw now1) (some d) now2).isTyping = false ∧
    (ChatJs.receiveMessage (ChatJs.sendMessage s raw now1) (some d) now2).messageHistory.length
        = s.messageHistory.length + 2 ∧
    (∀ (bs : ChatStore.State) (content blockType now : String) (data : BlockUI.ApiData),
        bs.currentBlockId.isNone = false → bs.userId.isNone = false →
        (jsTrim content).isEmpty = false →
        (BlockUI.handleSendMessage bs content (.ok data) blockType now).messageHistory
            = bs.messageHistory ++
              [{ role := "user", content := content, timestamp := some now },
               { role := "assistant", content := BlockUI.extractContent data,
                 timestamp := some now }] ∧
        (BlockUI.handleSendMessage bs content (.ok data) blockType now).isTyping = false) := by
  refine ⟨?_, ?_, ?_, ?_, ?_, ?_⟩
  · simp [ChatJs.sendMessage, h, ChatJs.updateMessageCount, ChatJs.showTypingIndicator]
  · simp [ChatJs.sendMessage, h, ChatJs.updateMessageCount, ChatJs.showTypingIndicator]
  · simp [ChatJs.receiveMessage, ChatJs.showTypingIndicator, ChatJs.updateMessageCount]
  · simp [ChatJs.receiveMessage, ChatJs.showTypingIndicator, ChatJs.updateMessageCount]
  · simp [ChatJs.receiveMessage, ChatJs.sendMessage, h, ChatJs.showTypingIndicator,
      ChatJs.updateMessageCount]
  · intro bs content blockType now data h1 h2 h3
    constructor
    · simp [BlockUI.handleSendMessage, h1, h2, h3, ChatStore.addMessage, ChatStore.setIsTyping,
        ChatStore.addLog, BlockUI.reconcileBlockId_messageHistory]
    · simp [BlockUI.handleSendMessage, h1, h2, h3, ChatStore.setIsTyping, ChatStore.addLog]

/-- C2 witness: the theorem instantiated on the end-to-end "hello" /
"hi" exchange. -/
theorem C2_send_appends_then_reply_witness :
    (ChatJs.sendMessage ChatJs.freshState "hello" "T1").messageHistory
        = [{ role := "user", content := "hello", timestamp := some "T1", session_id := none }] ∧
    ((ChatJs.receiveMessage (ChatJs.sendMessage ChatJs.freshState "hello" "T1")
        (some { response := some "hi" }) "T2").messageHistory.length = 2) := by
  have h := C2_send_appends_then_reply ChatJs.freshState "hello" "T1" "T2"
    { response := some "hi" } (by decide)
  exact ⟨by simpa [ChatJs.freshState] using h.1, by simpa using h.2.2.2.2.1⟩

/-- C3 counterexample: after the chat.js new-session bootstrap from a
fresh page the history holds two system messages (the cleared notice
installed by `clearChat` and the welcome message), not exactly one, and
after the IdeaPage bootstrap over the legacy store the displayed count
is 0, not 1. -/
theorem C3_counterexample :
    ¬ ((ChatJs.createNewSession ChatJs.freshState
          { session_id := "sess-12345", created_at := "2025-01-01T00:00:00Z" }
          "T").messageHistory.length = 1) ∧
    ¬ ((IdeaPage.createNewSession (LegacyStore.initialState "T0") "sess-67890"
          "2025-01-01T00:00:00Z" "T").sessionInfo.messageCount = 1) := by
  exact ⟨by decide, by decide⟩

/-- C3 (amended): when no session URL parameter is present a new session
is created; in chat.js the resulting history is exactly the cleared
notice followed by the welcome message (length 2) while the count cell
shows 1, and in the IdeaPage variant the history is exactly the one
welcome message while the stored count stays 0. -/
theorem C3_new_session_bootstrap :
    (∀ (data : SessionData) (now : String),
        (ChatJs.createNewSession ChatJs.freshState data now).messageHistory
            = [ChatJs.clearedNotice now, ChatJs.welcomeMessage now] ∧
        (ChatJs.createNewSession ChatJs.freshState data now).displayedCount = 1 ∧
        (ChatJs.createNewSession ChatJs.freshState data now).currentSessionId
            = some data.session_id) ∧
    (∀ (sid createdAt now0 now : String),
        (IdeaPage.createNewSession (LegacyStore.initialState now0) sid createdAt now).messageHistory
            = [IdeaPage.welcomeMessage now] ∧
        (IdeaPage.createNewSession (LegacyStore.initialState now0) sid createdAt
            now).sessionInfo.messageCount = 0) := by
  constructor
  · intro data now
    refine ⟨?_, ?_, ?_⟩ <;>
      simp [ChatJs.createNewSession, ChatJs.clearChat, ChatJs.updateSessionInfo,
        ChatJs.updateMessageCount, ChatJs.freshState, ChatJs.clearedNotice]
  · intro sid createdAt now0 now
    refine ⟨?_, ?_⟩ <;>
      simp [IdeaPage.createNewSession, LegacyStore.setCurrentSessionId,
        LegacyStore.setMessageHistory, LegacyStore.setSessionInfo, LegacyStore.addLog,
        LegacyStore.initialState]

/-- Every message matches itself under the catch-up duplicate test. -/
theorem ChatJs.matchesFetched_self (m : Message) : ChatJs.matchesFetched m m = true := by
  simp [ChatJs.matchesFetched]

/-- One merge step can only keep or append, so any satisfied history
predicate stays satisfied. -/
theorem ChatJs.any_mergeFetchedMessage (p : Message → Bool) (h : List Message) (msg : Message)
    (hp : h.any p = true) : (ChatJs.mergeFetchedMessage h msg).any p = true := by
  unfold ChatJs.mergeFetchedMessage
  split
  · exact hp
  · simp [List.any_append, hp]

/-- A whole batch merge can only keep or append, so any satisfied
history predicate stays satisfied. -/
theorem ChatJs.any_mergeFetchedMessages (p : Message → Bool) (h b : List Message)
    (hp : h.any p = true) : (ChatJs.mergeFetchedMessages h b).any p = true := by
  induction b generalizing h with
  | nil => exact hp
  | cons c cs ih =>
    simp only [ChatJs.mergeFetchedMessages, List.foldl_cons] at *
    exact ih (ChatJs.mergeFetchedMessage h c) (ChatJs.any_mergeFetchedMessage p h c hp)

/-- After merging a batch, every batch message has a matching entry in
the merged history. -/
theorem ChatJs.batch_matched (h b : List Message) :
    ∀ m ∈ b, (ChatJs.mergeFetchedMessages h b).any (ChatJs.matchesFetched m) = true := by
  induction b generalizing h with
  | nil => intro m hm; cases hm
  | cons c cs ih =>
    intro m hm
    simp only [ChatJs.mergeFetchedMessages, List.foldl_cons]
    rcases List.mem_cons.mp hm with rfl | hmem
    · have hc : (ChatJs.mergeFetchedMessage h m).any (ChatJs.matchesFetched m) = true := by
        unfold ChatJs.mergeFetchedMessage
        split
        · assumption
        · simp [List.any_append, ChatJs.matchesFetched_self]
      exact ChatJs.any_mergeFetchedMessages _ _ cs hc
    · exact ih (ChatJs.mergeFetchedMessage h c) m hmem

/-- Merging a batch whose members all already have matching history
entries changes nothing. -/
theorem ChatJs.merge_skip_all (h b : List Message)
    (hall : ∀ m ∈ b, h.any (ChatJs.matchesFetched m) = true) :
    ChatJs.mergeFetchedMessages h b = h := by
  induction b with
  | nil => rfl
  | cons c cs ih =>
    simp only [ChatJs.mergeFetchedMessages, List.foldl_cons]
    have hc : ChatJs.mergeFetchedMessage h c = h := by
      unfold ChatJs.mergeFetchedMessage
      rw [hall c (List.mem_cons_self c cs)]
      simp
    rw [hc]
    exact ih (fun m hm => hall m (List.mem_cons_of_mem c hm))

/-- C4: the visibility-regain catch-up merge appends a fetched message
exactly when no history entry matches it on role, content and timestamp
simultaneously; merging a message identical on all three fields to an
entry already present leaves the history unchanged; and re-merging the
same batch is idempotent. -/
theorem C4_merge_dedup :
    (∀ (h : List Message) (m : Message), h.any (ChatJs.matchesFetched m) = false →
        ChatJs.mergeFetchedMessages h [m] = h ++ [m]) ∧
    (∀ (h : List Message) (m : Message), h.any (ChatJs.matchesFetched m) = true →
        ChatJs.mergeFetchedMessages h [m] = h) ∧
    (∀ (h : List Message) (m mDup : Message), mDup ∈ h →
        mDup.timestamp = m.timestamp → mDup.content = m.content → mDup.role = m.role →
        ChatJs.mergeFetchedMessages h [m] = h) ∧
    (∀ (h b : List Message),
        ChatJs.mergeFetchedMessages (ChatJs.mergeFetchedMessages h b) b
          = ChatJs.mergeFetchedMessages h b) := by
  refine ⟨?_, ?_, ?_, ?_⟩
  · intro h m hfalse
    simp [ChatJs.mergeFetchedMessages, ChatJs.mergeFetchedMessage, hfalse]
  · intro h m htrue
    simp [ChatJs.mergeFetchedMessages, ChatJs.mergeFetchedMessage, htrue]
  · intro h m mDup hmem h1 h2 h3
    have hany : h.any (ChatJs.matchesFetched m) = true :=
      List.any_eq_true.mpr ⟨mDup, hmem, by simp [ChatJs.matchesFetched, h1, h2, h3]⟩
    simp [ChatJs.mergeFetchedMessages, ChatJs.mergeFetchedMessage, hany]
  · intro h b
    exact ChatJs.merge_skip_all _ b (ChatJs.batch_matched h b)

/-- C4 witness: merging an exact three-field duplicate of the one
history entry leaves exactly that one entry. -/
theorem C4_merge_dedup_witness :
    ChatJs.mergeFetchedMessages
        [{ role := "user", content := "hi", timestamp := some "T1" }]
        [{ role := "user", content := "hi", timestamp := some "T1" }]
      = [{ role := "user", content := "hi", timestamp := some "T1" }] :=
  C4_merge_dedup.2.2.1 [{ role := "user", content := "hi", timestamp := some "T1" }]
    { role := "user", content := "hi", timestamp := some "T1" }
    { role := "user", content := "hi", timestamp := some "T1" }
    (List.mem_singleton.mpr rfl) rfl rfl rfl

/-- Stream-event runs compose by appending event lists. -/
theorem StreamUI.processStream_append (s : StreamUI.State)
    (e1 e2 : List StreamUI.StreamEvent) (now : String) :
    StreamUI.processStream s (e1 ++ e2) now
      = StreamUI.processStream (StreamUI.processStream s e1 now) e2 now := by
  simp [StreamUI.processStream, List.foldl_append]

/-- A run of plain (non-sentinel) chunk events leaves the history and
the typing flag alone and only grows the pending buffer. -/
theorem StreamUI.chunk_run (s : StreamUI.State) (chunks : List String) (now : String)
    (h : ∀ c ∈ chunks, (c == "[DONE]") = false) :
    (StreamUI.processStream s (chunks.map StreamUI.StreamEvent.messageEvt) now).messageHistory
        = s.messageHistory ∧
    (StreamUI.processStream s (chunks.map StreamUI.StreamEvent.messageEvt) now).isTyping
        = s.isTyping ∧
    (StreamUI.processStream s (chunks.map StreamUI.StreamEvent.messageEvt) now).streamingMessage
        = chunks.foldl (fun a c => a ++ c) s.streamingMessage := by
  induction chunks generalizing s with
  | nil => exact ⟨rfl, rfl, rfl⟩
  | cons c cs ih =>
    have hc : (c == "[DONE]") = false := h c (List.mem_cons_self c cs)
    have htail : ∀ x ∈ cs, (x == "[DONE]") = false := fun x hx => h x (List.mem_cons_of_mem c hx)
    have hstep : StreamUI.handleStreamEvent s (.messageEvt c) now = StreamUI.appendToStream s c := by
      simp [StreamUI.handleStreamEvent, hc]
    simp only [List.map_cons, StreamUI.processStream, List.foldl_cons, hstep]
    exact ih (StreamUI.appendToStream s c) htail

/-- Ending a stream commits a non-empty pending buffer as one assistant
message and clears it. -/
theorem StreamUI.endStreaming_spec (s : StreamUI.State) (now : String) :
    (StreamUI.endStreaming s now).messageHistory
        = s.messageHistory ++
          (if s.streamingMessage.isEmpty then []
           else [{ role := "assistant", content := s.streamingMessage, timestamp := some now }]) ∧
    (StreamUI.endStreaming s now).isTyping = false ∧
    (StreamUI.endStreaming s now).streamingMessage = "" := by
  unfold StreamUI.endStreaming
  refine ⟨?_, rfl, rfl⟩
  split <;> simp [StreamUI.addMessage]

/-- C5 counterexample: with the streaming store actions modelled from
the spec (the buffer is committed whenever the stream terminates), a
stream that delivers the chunk "he" and then errors leaves the partial
buffer in the history followed by the synthetic error message — the
error message is appended after, not instead of, the partial buffer. -/
theorem C5_counterexample :
    (StreamUI.processStream
        { messageHistory := [], isTyping := true, streamingMessage := "" }
        [StreamUI.StreamEvent.messageEvt "he", StreamUI.StreamEvent.errorEvt]
        "T").messageHistory
      = [{ role := "assistant", content := "he", timestamp := some "T" },
         StreamUI.streamErrorMessage "T"] := by
  decide

/-- C5 (amended): chunks are concatenated into the pending buffer and
never touch the history before the stream terminates; receiving the
`[DONE]` sentinel commits the (non-empty) buffer as exactly one
assistant message and drops the typing flag; a stream error commits the
non-empty partial buffer the same way and then appends the synthetic
system error message after it. -/
theorem C5_streaming_buffer (s : StreamUI.State) (chunks : List String) (now : String)
    (h : ∀ c ∈ chunks, (c == "[DONE]") = false) :
    (StreamUI.processStream s (chunks.map StreamUI.StreamEvent.messageEvt) now).messageHistory
        = s.messageHistory ∧
    (StreamUI.processStream s (chunks.map StreamUI.StreamEvent.messageEvt) now).streamingMessage
        = chunks.foldl (fun a c => a ++ c) s.streamingMessage ∧
    ((StreamUI.processStream s
        (chunks.map StreamUI.StreamEvent.messageEvt ++ [StreamUI.StreamEvent.messageEvt "[DONE]"])
        now).messageHistory
      = s.messageHistory ++
        (if (chunks.foldl (fun a c => a ++ c) s.streamingMessage).isEmpty then []
         else [{ role := "assistant",
                 content := chunks.foldl (fun a c => a ++ c) s.streamingMessage,
                 timestamp := some now }])) ∧
    ((StreamUI.processStream s
        (chunks.map StreamUI.StreamEvent.messageEvt ++ [StreamUI.StreamEvent.messageEvt "[DONE]"])
        now).isTyping = false) ∧
    ((StreamUI.processStream s
        (chunks.map StreamUI.StreamEvent.messageEvt ++ [StreamUI.StreamEvent.errorEvt])
        now).messageHistory
      = s.messageHistory ++
        (if (chunks.foldl (fun a c => a ++ c) s.streamingMessage).isEmpty then []
         else [{ role := "assistant",
                 content := chunks.foldl (fun a c => a ++ c) s.streamingMessage,
                 timestamp := some now }]) ++
        [StreamUI.streamErrorMessage now]) := by
  obtain ⟨hh, ht, hb⟩ := StreamUI.chunk_run s chunks now h
  refine ⟨hh, hb, ?_, ?_, ?_⟩
  · rw [StreamUI.processStream_append]
    have hdone :
        StreamUI.processStream (StreamUI.processStream s (chunks.map StreamUI.StreamEvent.messageEvt) now)
          [StreamUI.StreamEvent.messageEvt "[DONE]"] now
        = StreamUI.endStreaming
            (StreamUI.processStream s (chunks.map StreamUI.StreamEvent.messageEvt) now) now := by
      simp [StreamUI.processStream, StreamUI.handleStreamEvent]
    rw [hdone, (StreamUI.endStreaming_spec _ now).1, hh, hb]
  · rw [StreamUI.processStream_append]
    have hdone :
        StreamUI.processStream (StreamUI.processStream s (chunks.map StreamUI.StreamEvent.messageEvt) now)
          [StreamUI.StreamEvent.messageEvt "[DONE]"] now
        = StreamUI.endStreaming
            (StreamUI.processStream s (chunks.map StreamUI.StreamEvent.messageEvt) now) now := by
      simp [StreamUI.processStream, StreamUI.handleStreamEvent]
    rw [hdone]
    exact (StreamUI.endStreaming_spec _ now).2.1
  · rw [StreamUI.processStream_append]
    have herr :
        StreamUI.processStream (StreamUI.processStream s (chunks.map StreamUI.StreamEvent.messageEvt) now)
          [StreamUI.StreamEvent.errorEvt] now
        = StreamUI.addMessage
            (StreamUI.endStreaming
              (StreamUI.processStream s (chunks.map StreamUI.StreamEvent.messageEvt) now) now)
            (StreamUI.streamErrorMessage now) := by
      simp [StreamUI.processStream, StreamUI.handleStreamEvent]
    rw [herr]
    simp only [StreamUI.addMessage, (StreamUI.endStreaming_spec _ now).1, hh, hb]

/-- C5 witness: the amended statement instantiated on a two-chunk
stream closed by the sentinel. -/
theorem C5_streaming_buffer_witness :
    (StreamUI.processStream
        { messageHistory := [], isTyping := true, streamingMessage := "" }
        ([StreamUI.StreamEvent.messageEvt "he", StreamUI.StreamEvent.messageEvt "llo"]
          ++ [StreamUI.StreamEvent.messageEvt "[DONE]"])
        "T").messageHistory
      = [{ role := "assistant", content := "hello", timestamp := some "T" }] := by
  have h := C5_streaming_buffer
    { messageHistory := [], isTyping := true, streamingMessage := "" }
    ["he", "llo"] "T" (by decide)
  simpa using h.2.2.1

/-- C6 counterexample: a `chat_response` push event whose payload
session id differs from the currently open session still appends an
assistant message — the subscriber applies `receiveMessage` with no
session check, so the event does not leave the history unchanged. -/
theorem C6_counterexample :
    ¬ ((IdeaSocket.handleEvent { ChatJs.freshState with currentSessionId := some "mine" }
          (SocketEvent.chat_response (some { session_id := some "other", response := some "x" }))
          "T").messageHistory
        = ({ ChatJs.freshState with currentSessionId := some "mine" } : ChatJs.State).messageHistory) := by
  decide

/-- C6 (amended): in both subscriber variants, `typing_indicator` and
`session_update` events whose payload session id does not strictly
match the current session leave the whole state unchanged, while
`chat_response` is handed to `receiveMessage` regardless of its session
id and always appends one assistant message (dropping the typing flag);
the list-level events apply regardless of which session is open. -/
theorem C6_session_scoping (now : String) :
    (∀ (s : ChatJs.State) (data : TypingPayload),
        sessionIdMatches data.session_id s.currentSessionId = false →
        IdeaSocket.handleEvent s (SocketEvent.typing_indicator data) now = s) ∧
    (∀ (s : ChatJs.State) (data : SessionData),
        sessionIdMatches (some data.session_id) s.currentSessionId = false →
        IdeaSocket.handleEvent s (SocketEvent.session_update data) now = s) ∧
    (∀ (s : ChatJs.State) (data : TypingPayload),
        sessionIdMatches data.session_id s.currentSessionId = false →
        ScriptSocket.handleEvent s (SocketEvent.typing_indicator data) now = s) ∧
    (∀ (s : ChatJs.State) (data : SessionData),
        sessionIdMatches (some data.session_id) s.currentSessionId = false →
        ScriptSocket.handleEvent s (SocketEvent.session_update data) now = s) ∧
    (∀ (s : ChatJs.State) (d : ChatPayload),
        (IdeaSocket.handleEvent s (SocketEvent.chat_response (some d)) now).messageHistory
          = s.messageHistory ++
            [{ role := "assistant",
               content := jsOrDefault (jsOrOpt d.response d.content) "No response received",
               timestamp := some (jsOrDefault d.timestamp now) }] ∧
        (ScriptSocket.handleEvent s (SocketEvent.chat_response (some d)) now).messageHistory
          = s.messageHistory ++
            [{ role := "assistant",
               content := jsOrDefault (jsOrOpt d.response d.content) "No response received",
               timestamp := some (jsOrDefault d.timestamp now) }]) := by
  refine ⟨?_, ?_, ?_, ?_, ?_⟩
  · intro s data hfalse
    simp [IdeaSocket.handleEvent, hfalse]
  · intro s data hfalse
    simp [IdeaSocket.handleEvent, hfalse]
  · intro s data hfalse
    simp [ScriptSocket.handleEvent, hfalse]
  · intro s data hfalse
    simp [ScriptSocket.handleEvent, hfalse]
  · intro s d
    constructor <;>
      simp [IdeaSocket.handleEvent, ScriptSocket.handleEvent, ChatJs.receiveMessage,
        ChatJs.showTypingIndicator, ChatJs.updateMessageCount]

/-- C6 witness: a mismatched `typing_indicator` is dropped on a
concrete state. -/
theorem C6_session_scoping_witness :
    IdeaSocket.handleEvent { ChatJs.freshState with currentSessionId := some "mine" }
        (SocketEvent.typing_indicator { session_id := some "other", is_typing := true }) "T"
      = { ChatJs.freshState with currentSessionId := some "mine" } :=
  (C6_session_scoping "T").1 { ChatJs.freshState with currentSessionId := some "mine" }
    { session_id := some "other", is_typing := true } (by decide)

/-- One lifecycle step keeps the reconnect counter within the cap. -/
theorem IdeaSocket.lifecycleStep_le (n : Nat) (e : IdeaSocket.LifecycleEvent)
    (h : n ≤ IdeaSocket.MAX_RECONNECT_ATTEMPTS) :
    (IdeaSocket.lifecycleStep n e).1 ≤ IdeaSocket.MAX_RECONNECT_ATTEMPTS := by
  cases e with
  | connected => simp [IdeaSocket.lifecycleStep]
  | disconnected => simpa [IdeaSocket.lifecycleStep] using h
  | socketError =>
    simp only [IdeaSocket.lifecycleStep, IdeaSocket.attemptReconnect]
    split
    · omega
    · simpa using h

/-- Any run of lifecycle events keeps the reconnect counter within the
cap. -/
theorem IdeaSocket.runLifecycle_le (n : Nat) (events : List IdeaSocket.LifecycleEvent)
    (h : n ≤ IdeaSocket.MAX_RECONNECT_ATTEMPTS) :
    IdeaSocket.runLifecycle n events ≤ IdeaSocket.MAX_RECONNECT_ATTEMPTS := by
  induction events generalizing n with
  | nil => exact h
  | cons e es ih =>
    simp only [IdeaSocket.runLifecycle, List.foldl_cons] at *
    exact ih _ (IdeaSocket.lifecycleStep_le n e h)

/-- C7: below the cap the n-th retry is scheduled `2000 * n` ms out with
the counter incremented to n; at the cap `attemptReconnect` schedules
nothing and only surfaces the terminal notice; the counter is reset to
0 by a successful connect and never decreases on any other event; and
no run of lifecycle events from the initial counter 0 ever exceeds the
cap of 5. -/
theorem C7_reconnect_policy :
    (∀ n, n < IdeaSocket.MAX_RECONNECT_ATTEMPTS →
        IdeaSocket.attemptReconnect n
          = (n + 1, IdeaSocket.ReconnectAction.schedule (2000 * (n + 1)))) ∧
    (∀ n, IdeaSocket.MAX_RECONNECT_ATTEMPTS ≤ n →
        IdeaSocket.attemptReconnect n = (n, IdeaSocket.ReconnectAction.terminalNotice)) ∧
    (∀ n, (IdeaSocket.lifecycleStep n IdeaSocket.LifecycleEvent.connected).1 = 0) ∧
    (∀ n e, e ≠ IdeaSocket.LifecycleEvent.connected → n ≤ (IdeaSocket.lifecycleStep n e).1) ∧
    (∀ events, IdeaSocket.runLifecycle 0 events ≤ IdeaSocket.MAX_RECONNECT_ATTEMPTS) := by
  refine ⟨?_, ?_, ?_, ?_, ?_⟩
  · intro n hn
    simp [IdeaSocket.attemptReconnect, hn]
  · intro n hn
    simp [IdeaSocket.attemptReconnect, Nat.not_lt.mpr hn]
  · intro n
    rfl
  · intro n e he
    cases e with
    | connected => exact absurd rfl he
    | disconnected => exact Nat.le_refl n
    | socketError =>
      simp only [IdeaSocket.lifecycleStep, IdeaSocket.attemptReconnect]
      split <;> omega
  · intro events
    exact IdeaSocket.runLifecycle_le 0 events (by decide)

/-- C7 witness: the third error from a fresh counter schedules the
retry 6000 ms out, and the counter caps at 5. -/
theorem C7_reconnect_policy_witness :
    IdeaSocket.attemptReconnect 2 = (3, IdeaSocket.ReconnectAction.schedule 6000) ∧
    IdeaSocket.attemptReconnect 5 = (5, IdeaSocket.ReconnectAction.terminalNotice) :=
  ⟨C7_reconnect_policy.1 2 (by decide), C7_reconnect_policy.2.1 5 (by decide)⟩

/-- C8 counterexample: the legacy sessions store's `setMessageHistory`
replaces the history without normalization, so a message lacking a
timestamp stays without one in the resulting history. -/
theorem C8_counterexample :
    ((LegacyStore.setMessageHistory (LegacyStore.initialState "T0")
        [{ role := "user", content := "hi" }]).messageHistory.all
      (fun m => m.timestamp.isSome)) = false := by
  decide

/-- C8 (amended): the blocks store's `setMessageHistory` replaces the
whole history with the normalized input: every resulting message
carries a timestamp, a message lacking one (or carrying the empty
string) is stamped with the normalization time, a message with a
non-empty explicit timestamp is returned unchanged, and all other
fields are preserved.  The legacy sessions store's `setMessageHistory`
is a plain replacement with no normalization. -/
theorem C8_setMessageHistory_normalizes :
    (∀ (s : ChatStore.State) (msgs : List Message) (now : String),
        (ChatStore.setMessageHistory s msgs now).messageHistory
          = msgs.map (ChatStore.normalizeMessage now)) ∧
    (∀ (s : ChatStore.State) (msgs : List Message) (now : String) (m : Message),
        m ∈ (ChatStore.setMessageHistory s msgs now).messageHistory →
        m.timestamp.isSome = true) ∧
    (∀ (now : String) (msg : Message), msg.timestamp = none →
        ChatStore.normalizeMessage now msg = { msg with timestamp := some now }) ∧
    (∀ (now : String) (msg : Message) (ts : String),
        msg.timestamp = some ts → ts.isEmpty = false →
        ChatStore.normalizeMessage now msg = msg) ∧
    (∀ (now : String) (msg : Message),
        (ChatStore.normalizeMessage now msg).role = msg.role ∧
        (ChatStore.normalizeMessage now msg).content = msg.content ∧
        (ChatStore.normalizeMessage now msg).error = msg.error ∧
        (ChatStore.normalizeMessage now msg).session_id = msg.session_id) ∧
    (∀ (s : LegacyStore.State) (msgs : List Message),
        (LegacyStore.setMessageHistory s msgs).messageHistory = msgs) := by
  refine ⟨?_, ?_, ?_, ?_, ?_, ?_⟩
  · intro s msgs now
    simp [ChatStore.setMessageHistory]
  · intro s msgs now m hm
    simp only [ChatStore.setMessageHistory, List.mem_map] at hm
    obtain ⟨m0, _, rfl⟩ := hm
    simp [ChatStore.normalizeMessage]
  · intro now msg hnone
    simp [ChatStore.normalizeMessage, hnone, jsOrDefault]
  · intro now msg ts hts hne
    cases msg
    simp_all [ChatStore.normalizeMessage, jsOrDefault]
  · intro now msg
    exact ⟨rfl, rfl, rfl, rfl⟩
  · intro s msgs
    rfl

/-- C8 witness: a message with a non-empty explicit timestamp round
trips through the blocks store normalization. -/
theorem C8_setMessageHistory_normalizes_witness :
    ChatStore.normalizeMessage "NOW" { role := "user", content := "hi", timestamp := some "T1" }
      = { role := "user", content := "hi", timestamp := some "T1" } :=
  C8_setMessageHistory_normalizes.2.2.2.1 "NOW"
    { role := "user", content := "hi", timestamp := some "T1" } "T1" rfl (by decide)

/-- C9: exporting an empty history is rejected with no file; with a
session open and N ≥ 1 messages, chat.js downloads the
`{session_id, messages, exported_at, type}` document whose messages
array is exactly the history (length N) under a filename built from the
8-character session id prefix and the date, and the blocks interface
does the analogous thing for its `{block_id, ...}` document. -/
theorem C9_exportChat (s : ChatJs.State) (now sid : String)
    (h1 : s.currentSessionId = some sid) (h2 : s.messageHistory.isEmpty = false) :
    ChatJs.exportChat s now
      = Except.ok
          { doc := { session_id := some sid, messages := s.messageHistory,
                     exported_at := now, type := "idea_development" }
            filename := "kraft-chat-" ++ sid.take 8 ++ "-" ++ now.take 10 ++ ".json" } ∧
    (∀ (s2 : ChatJs.State) (now2 : String), s2.messageHistory = [] →
        ChatJs.exportChat s2 now2 = Except.error ChatJs.ExportErr.noMessages) ∧
    (∀ (bs : ChatStore.State) (blockType now2 bid : String),
        bs.currentBlockId = some bid → bs.messageHistory.isEmpty = false →
        BlockUI.handleExportChat bs blockType now2
          = some
              { doc := { block_id := bid, backend_block_id := bs.blockInfo.blockId,
                         block_type := jsOrDefault (some bs.blockInfo.type) blockType,
                         messages := bs.messageHistory, exported_at := now2 }
                filename := "kraft-chat-" ++ bid.take 8 ++ "-" ++ now2.take 10 ++ ".json" }) ∧
    (∀ (bs : ChatStore.State) (blockType now2 : String), bs.messageHistory = [] →
        BlockUI.handleExportChat bs blockType now2 = none) := by
  refine ⟨?_, ?_, ?_, ?_⟩
  · simp [ChatJs.exportChat, h1, h2]
  · intro s2 now2 hempty
    simp [ChatJs.exportChat, hempty]
  · intro bs blockType now2 bid hb hne
    simp [BlockUI.handleExportChat, hb, hne]
  · intro bs blockType now2 hempty
    unfold BlockUI.handleExportChat
    split
    · rfl
    · simp [hempty]

/-- C9 witness: the theorem instantiated on a one-message history. -/
theorem C9_exportChat_witness :
    ChatJs.exportChat
        { ChatJs.freshState with
            currentSessionId := some "abcdefgh-xyz"
            messageHistory := [{ role := "user", content := "m", timestamp := some "T1" }] }
        "2025-01-02T10:00:00Z"
      = Except.ok
          { doc := { session_id := some "abcdefgh-xyz"
                     messages := [{ role := "user", content := "m", timestamp := some "T1" }]
                     exported_at := "2025-01-02T10:00:00Z", type := "idea_development" }
            filename := "kraft-chat-abcdefgh-2025-01-02.json" } := by
  have h := (C9_exportChat
    { ChatJs.freshState with
        currentSessionId := some "abcdefgh-xyz"
        messageHistory := [{ role := "user", content := "m", timestamp := some "T1" }] }
    "2025-01-02T10:00:00Z" "abcdefgh-xyz" rfl (by decide)).1
  simpa using h

/-- C10: deleting the currently open session nulls `currentSessionId`
without clearing the in-memory history, so from any state with a
non-empty history the subsequent `exportChat` passes the empty-history
guard, hits `currentSessionId.substring` on null and throws a TypeError
instead of completing or being cleanly rejected; in general `exportChat`
throws exactly this way whenever the history is non-empty and the
current session id is null. -/
theorem C10_delete_current_then_export (s : ChatJs.State) (sid now : String)
    (h1 : s.currentSessionId = some sid) (h2 : s.messageHistory.isEmpty = false) :
    (ChatJs.deleteSessionById s sid).messageHistory = s.messageHistory ∧
    (ChatJs.deleteSessionById s sid).currentSessionId = none ∧
    ChatJs.exportChat (ChatJs.deleteSessionById s sid) now
      = Except.error ChatJs.ExportErr.nullSessionTypeError ∧
    (∀ (s2 : ChatJs.State) (now2 : String),
        s2.currentSessionId = none → s2.messageHistory.isEmpty = false →
        ChatJs.exportChat s2 now2 = Except.error ChatJs.ExportErr.nullSessionTypeError) := by
  refine ⟨?_, ?_, ?_, ?_⟩
  · simp [ChatJs.deleteSessionById, h1]
  · simp [ChatJs.deleteSessionById, h1]
  · simp [ChatJs.deleteSessionById, ChatJs.exportChat, h1, h2]
  · intro s2 now2 hnone hne
    simp [ChatJs.exportChat, hnone, hne]

/-- C10 witness: the theorem instantiated on a concrete one-message
session. -/
theorem C10_delete_current_then_export_witness :
    ChatJs.exportChat
        (ChatJs.deleteSessionById
          { ChatJs.freshState with
              currentSessionId := some "sess-12345"
              messageHistory := [{ role := "user", content := "m", timestamp := some "T1" }] }
          "sess-12345")
        "T2"
      = Except.error ChatJs.ExportErr.nullSessionTypeError :=
  (C10_delete_current_then_export
    { ChatJs.freshState with
        currentSessionId := some "sess-12345"
        messageHistory := [{ role := "user", content := "m", timestamp := some "T1" }] }
    "sess-12345" "T2" rfl (by decide)).2.2.1
